import Mathlib

/-!
Shallow embedding of `src/middleware.ts` (bigbearman/test-tracker).

The file holds two variants of the middleware: the full multi-layer
detector (`detectAgent(request)` with `analyzePatterns`) and an older
single-layer variant (`detectAgent(ua)`).  Both are embedded below.

A request is modelled by the headers the classifier reads; `none` is an
absent header (`headers.get` returns `null`), `some s` a present one.
JavaScript truthiness of `headers.get(name)` (`!v` is true for `null`
and for the empty string) is captured by `blank`.  The case-insensitive
regular expressions of `KNOWN_AGENTS` are all alternations of literal
strings, embedded as lists of alternatives tested by case-insensitive
containment.
-/

namespace TestTracker

/-- The header view of an incoming request used by the classifier. -/
structure Req where
  userAgent : Option String
  referer : Option String
  cookie : Option String
  acceptLanguage : Option String
  accept : Option String
  secFetchMode : Option String
  secFetchSite : Option String
deriving DecidableEq

/-- Truthiness test of `headers.get(name)`: true when the header is
absent or present with an empty value. -/
def blank (o : Option String) : Bool :=
  (o.getD "").isEmpty

/-- Does the second list start with the first one? -/
def startsWithL : List Char → List Char → Bool
  | [], _ => true
  | _ :: _, [] => false
  | a :: as, b :: bs => a == b && startsWithL as bs

/-- Does `hay` contain `needle` as a contiguous run? -/
def containsL (needle : List Char) : List Char → Bool
  | [] => startsWithL needle []
  | b :: bs => startsWithL needle (b :: bs) || containsL needle bs

/-- Case-sensitive containment on strings: `hay.includes(needle)`. -/
def strContains (hay needle : String) : Bool :=
  containsL needle.toList hay.toList

/-- Case-insensitive test of an alternation of literals against `ua`:
the embedding of `/lit1|lit2/i.test(ua)`. -/
def testCI (alts : List String) (ua : String) : Bool :=
  alts.any fun a =>
    containsL (a.toList.map Char.toLower) (ua.toList.map Char.toLower)

/-- The `KNOWN_AGENTS` table: name and the literal alternatives of its
case-insensitive pattern, in source order. -/
def KNOWN_AGENTS : List (String × List String) :=
  [("GPTBot", ["GPTBot"]),
   ("ChatGPT-User", ["ChatGPT-User"]),
   ("OAI-SearchBot", ["OAI-SearchBot"]),
   ("ClaudeBot", ["ClaudeBot", "Claude-Web"]),
   ("Google-Extended", ["Google-Extended"]),
   ("Gemini-Deep-Research", ["Gemini-Deep-Research"]),
   ("GoogleVertexBot", ["Google-CloudVertexBot"]),
   ("GeminiBot", ["GeminiiOS", "Gemini/"]),
   ("PerplexityBot", ["PerplexityBot"]),
   ("ByteSpider", ["Bytespider"]),
   ("FacebookBot", ["FacebookBot"]),
   ("Meta-ExternalAgent", ["Meta-ExternalAgent"]),
   ("Applebot", ["Applebot"]),
   ("Amazonbot", ["Amazonbot"]),
   ("YouBot", ["YouBot"]),
   ("DuckAssistant", ["DuckAssistant", "DuckAssistBot"])]

/-- `CONFIDENCE.SERVER_UA` -/
def CONFIDENCE_SERVER_UA : Nat := 95

/-- `CONFIDENCE.PATTERN` -/
def CONFIDENCE_PATTERN : Nat := 40

/-- `CONFIDENCE.EXTRA_LAYER_BONUS` -/
def CONFIDENCE_EXTRA_LAYER_BONUS : Nat := 5

/-- `CONFIDENCE.AGENT_THRESHOLD` -/
def CONFIDENCE_AGENT_THRESHOLD : Nat := 50

/-- The loop over `Object.entries(KNOWN_AGENTS)` that breaks at the
first entry whose pattern tests true on `ua`. -/
def findAgent (ua : String) : Option (String × List String) :=
  KNOWN_AGENTS.find? fun e => testCI e.2 ua

/-- The Accept-header clause of `analyzePatterns`: `+10` when the
header is missing or the wildcard, else `+10` when it is present but
does not include `text/html`. -/
def acceptScore (r : Req) : Nat :=
  let accept := r.accept.getD ""
  if accept.isEmpty || accept == "*/*" then 10
  else if !(strContains accept "text/html") then 10 else 0

/-- `analyzePatterns(request)`: the additive header-absence heuristic. -/
def analyzePatterns (r : Req) : Nat :=
  (if blank r.referer then 10 else 0)
  + (if blank r.cookie then 10 else 0)
  + (if blank r.acceptLanguage then 15 else 0)
  + acceptScore r
  + (if blank r.secFetchMode then 10 else 0)
  + (if blank r.secFetchSite then 5 else 0)

/-- The `DetectionResult` record of the multi-layer variant. -/
structure DetectionResult where
  isAgent : Bool
  agentName : String
  confidence : Nat
  layers : List String
deriving DecidableEq

/-- `detectAgent(request)`, the multi-layer variant. -/
def detectAgent (r : Req) : DetectionResult :=
  let ua := r.userAgent.getD ""
  let uaLayers : List (String × Nat) :=
    match findAgent ua with
    | some _ => [("ua", CONFIDENCE_SERVER_UA)]
    | none => []
  let agentName : String :=
    match findAgent ua with
    | some e => e.1
    | none => ""
  let patternScore := analyzePatterns r
  let layers : List (String × Nat) :=
    if patternScore ≥ CONFIDENCE_PATTERN then
      uaLayers ++ [("pattern", patternScore)]
    else uaLayers
  if layers.length = 0 then
    ⟨false, "", 0, []⟩
  else
    let maxScore := (layers.map fun l => l.2).foldl Nat.max 0
    let extraLayers := layers.length - 1
    let finalConfidence :=
      min 100 (maxScore + extraLayers * CONFIDENCE_EXTRA_LAYER_BONUS)
    ⟨decide (finalConfidence ≥ CONFIDENCE_AGENT_THRESHOLD),
     if agentName.isEmpty then "unknown-pattern" else agentName,
     finalConfidence,
     layers.map fun l => l.1⟩

/-- The result record of the older single-layer variant. -/
structure SingleDetection where
  isAgent : Bool
  agentName : String
  confidence : Nat
deriving DecidableEq

/-- `detectAgent(ua)`, the older single-layer variant: its loop over
`KNOWN_AGENTS` is the same first-match loop, so it is embedded through
`findAgent`; the first match wins with fixed confidence 95, otherwise
the zero result is returned. -/
def detectAgentSingle (ua : String) : SingleDetection :=
  match findAgent ua with
  | some e => ⟨true, e.1, 95⟩
  | none => ⟨false, "", 0⟩

/-- Scenario B of the spec: unknown identification string, referer,
cookie, accept-language, fetch-mode and fetch-site absent, accept the
wildcard. -/
def reqB : Req :=
  ⟨some "SomethingElse/1.0", none, none, none, some "*/*", none, none⟩

/-- `reqB` with a session cookie present, all else equal. -/
def reqBCookie : Req :=
  ⟨some "SomethingElse/1.0", none, some "sid=1", none, some "*/*", none, none⟩

/-- A fully browser-like request: unknown identification string and all
six browser signals present and well-formed. -/
def reqHuman : Req :=
  ⟨some "Mozilla/5.0", some "https://example.com/", some "sid=abc",
   some "en-US", some "text/html,application/xhtml+xml",
   some "navigate", some "same-origin"⟩

/-- A known-agent request with every other header absent. -/
def reqA : Req :=
  ⟨some "GPTBot/1.0", none, none, none, none, none, none⟩

/-- A request whose identification string is matched by two table
patterns, the table-earlier one not the string-earlier one. -/
def reqDouble : Req :=
  ⟨some "ClaudeBot GPTBot", none, none, none, none, none, none⟩

/-- A known-agent identification string on a browser-like header set:
the pattern score is 0. -/
def reqAgentBrowserlike : Req :=
  ⟨some "GPTBot/1.0", some "https://example.com/", some "sid=abc",
   some "en-US", some "text/html,application/xhtml+xml",
   some "navigate", some "same-origin"⟩

/-- A request with every modelled header absent. -/
def reqAllAbsent : Req :=
  ⟨none, none, none, none, none, none, none⟩

lemma acceptScore_cases (r : Req) : acceptScore r = 10 ∨ acceptScore r = 0 := by
  unfold acceptScore
  dsimp only
  split
  · exact Or.inl rfl
  · split
    · exact Or.inl rfl
    · exact Or.inr rfl

lemma analyzePatterns_le (r : Req) : analyzePatterns r ≤ 60 := by
  have h := acceptScore_cases r
  unfold analyzePatterns
  rcases h with h | h <;> rw [h] <;> (repeat' split) <;> omega

lemma agent_names_not_empty :
    ∀ e ∈ KNOWN_AGENTS, e.1.isEmpty = false := by decide

lemma detectAgent_some_low (r : Req) (e : String × List String)
    (hm : findAgent (r.userAgent.getD "") = some e)
    (hs : analyzePatterns r < 40) :
    detectAgent r = ⟨true, e.1, 95, ["ua"]⟩ := by
  have hne : e.1.isEmpty = false :=
    agent_names_not_empty e (List.mem_of_find?_eq_some hm)
  have hns : ¬ (analyzePatterns r ≥ CONFIDENCE_PATTERN) := by
    simp only [CONFIDENCE_PATTERN, ge_iff_le]
    omega
  simp only [detectAgent, hm]
  rw [if_neg hns]
  simp [hne, CONFIDENCE_SERVER_UA, CONFIDENCE_AGENT_THRESHOLD,
    CONFIDENCE_EXTRA_LAYER_BONUS]

lemma detectAgent_some_high (r : Req) (e : String × List String)
    (hm : findAgent (r.userAgent.getD "") = some e)
    (hs : 40 ≤ analyzePatterns r) :
    detectAgent r = ⟨true, e.1, 100, ["ua", "pattern"]⟩ := by
  have hne : e.1.isEmpty = false :=
    agent_names_not_empty e (List.mem_of_find?_eq_some hm)
  have hps : analyzePatterns r ≥ CONFIDENCE_PATTERN := by
    simp only [CONFIDENCE_PATTERN, ge_iff_le]
    omega
  simp only [detectAgent, hm]
  rw [if_pos hps]
  simp [hne, CONFIDENCE_SERVER_UA, CONFIDENCE_AGENT_THRESHOLD,
    CONFIDENCE_EXTRA_LAYER_BONUS]

lemma detectAgent_none_low (r : Req)
    (hm : findAgent (r.userAgent.getD "") = none)
    (hs : analyzePatterns r < 40) :
    detectAgent r = ⟨false, "", 0, []⟩ := by
  have hns : ¬ (analyzePatterns r ≥ CONFIDENCE_PATTERN) := by
    simp only [CONFIDENCE_PATTERN, ge_iff_le]
    omega
  simp only [detectAgent, hm]
  rw [if_neg hns]
  simp

lemma detectAgent_none_high (r : Req)
    (hm : findAgent (r.userAgent.getD "") = none)
    (hs : 40 ≤ analyzePatterns r) :
    detectAgent r =
      ⟨decide (50 ≤ analyzePatterns r), "unknown-pattern",
       analyzePatterns r, ["pattern"]⟩ := by
  have hle : analyzePatterns r ≤ 60 := analyzePatterns_le r
  have hps : analyzePatterns r ≥ CONFIDENCE_PATTERN := by
    simp only [CONFIDENCE_PATTERN, ge_iff_le]
    omega
  simp only [detectAgent, hm]
  rw [if_pos hps]
  simp [CONFIDENCE_SERVER_UA, CONFIDENCE_AGENT_THRESHOLD,
    CONFIDENCE_EXTRA_LAYER_BONUS]
  exact ⟨rfl, by omega⟩

lemma find?_split {α : Type} (p : α → Bool) :
    ∀ (l : List α) (e : α), l.find? p = some e →
      ∃ pre post, l = pre ++ e :: post ∧ p e = true ∧
        ∀ x ∈ pre, p x = false := by
  intro l
  induction l with
  | nil =>
      intro e h
      simp at h
  | cons a t ih =>
      intro e h
      by_cases hp : p a = true
      · rw [List.find?_cons_of_pos t hp] at h
        obtain rfl : a = e := Option.some.inj h
        refine ⟨[], t, rfl, hp, ?_⟩
        intro x hx
        simp at hx
      · have hp0 : p a = false := by simpa using hp
        rw [List.find?_cons_of_neg t hp] at h
        obtain ⟨pre, post, hl, hpe, hpre⟩ := ih e h
        refine ⟨a :: pre, post, by rw [hl, List.cons_append], hpe, ?_⟩
        intro x hx
        rcases List.mem_cons.mp hx with rfl | hx
        · exact hp0
        · exact hpre x hx

lemma findAgent_eq_none (ua : String)
    (h : ∀ e ∈ KNOWN_AGENTS, testCI e.2 ua = false) :
    findAgent ua = none := by
  rw [findAgent, List.find?_eq_none]
  intro x hx
  simp [h x hx]

lemma findAgent_exists (ua : String)
    (h : ∃ e ∈ KNOWN_AGENTS, testCI e.2 ua = true) :
    ∃ e, findAgent ua = some e := by
  have hsome : (findAgent ua).isSome := by
    rw [findAgent, List.find?_isSome]
    obtain ⟨e, he, ht⟩ := h
    exact ⟨e, he, ht⟩
  exact Option.isSome_iff_exists.mp hsome

/-- C1: for every request, the returned decision bit equals the test
whether the final confidence meets the threshold 50, the zero-layer
case included. -/
theorem C1_decision_threshold (r : Req) :
    (detectAgent r).isAgent = decide (50 ≤ (detectAgent r).confidence) := by
  rcases hm : findAgent (r.userAgent.getD "") with _ | e <;>
    rcases Nat.lt_or_ge (analyzePatterns r) 40 with hs | hs
  · rw [detectAgent_none_low r hm hs]
    rfl
  · rw [detectAgent_none_high r hm hs]
  · rw [detectAgent_some_low r e hm hs]
    rfl
  · rw [detectAgent_some_high r e hm hs]
    rfl

/-- C2: for every request, the final confidence lies in the closed
interval from 0 to 100. -/
theorem C2_confidence_range (r : Req) :
    0 ≤ (detectAgent r).confidence ∧ (detectAgent r).confidence ≤ 100 := by
  refine ⟨Nat.zero_le _, ?_⟩
  have hle : analyzePatterns r ≤ 60 := analyzePatterns_le r
  rcases hm : findAgent (r.userAgent.getD "") with _ | e <;>
    rcases Nat.lt_or_ge (analyzePatterns r) 40 with hs | hs
  · rw [detectAgent_none_low r hm hs]
    dsimp only
    omega
  · rw [detectAgent_none_high r hm hs]
    dsimp only
    omega
  · rw [detectAgent_some_low r e hm hs]
    dsimp only
    omega
  · rw [detectAgent_some_high r e hm hs]

/-- C10: for every request, the final confidence is either exactly 0 or
at least 40 — no value strictly between 1 and 39 is reachable. -/
theorem C10_confidence_gap (r : Req) :
    (detectAgent r).confidence = 0 ∨ 40 ≤ (detectAgent r).confidence := by
  rcases hm : findAgent (r.userAgent.getD "") with _ | e <;>
    rcases Nat.lt_or_ge (analyzePatterns r) 40 with hs | hs
  · rw [detectAgent_none_low r hm hs]
    exact Or.inl rfl
  · rw [detectAgent_none_high r hm hs]
    exact Or.inr hs
  · rw [detectAgent_some_low r e hm hs]
    exact Or.inr (by norm_num)
  · rw [detectAgent_some_high r e hm hs]
    exact Or.inr (by norm_num)

theorem C3_counterexample :
    analyzePatterns reqB = 60 ∧ ¬ analyzePatterns reqB = 65 ∧
    (detectAgent reqB).confidence = 60 ∧
    ¬ (detectAgent reqB).confidence = 65 ∧
    analyzePatterns reqB = analyzePatterns reqBCookie + 10 := by
  decide

theorem C3_amended_cookie_weight :
    (∀ r : Req,
      analyzePatterns r =
        analyzePatterns { r with cookie := some "sid=1" }
          + (if blank r.cookie then 10 else 0)) ∧
    analyzePatterns reqB = 60 ∧
    (detectAgent reqB).confidence = 60 ∧
    (detectAgent reqB).isAgent = true := by
  refine ⟨?_, by decide, by decide, by decide⟩
  intro r
  have hc : ("sid=1" : String).isEmpty = false := rfl
  simp only [analyzePatterns, acceptScore, blank]
  norm_num [hc]
  omega

theorem C4_first_match (r : Req)
    (h : ∃ e ∈ KNOWN_AGENTS, testCI e.2 (r.userAgent.getD "") = true) :
    ∃ e pre post,
      KNOWN_AGENTS = pre ++ e :: post ∧
      testCI e.2 (r.userAgent.getD "") = true ∧
      (∀ x ∈ pre, testCI x.2 (r.userAgent.getD "") = false) ∧
      (detectAgent r).agentName = e.1 ∧
      "ua" ∈ (detectAgent r).layers := by
  obtain ⟨e, hm⟩ := findAgent_exists _ h
  have hm2 : KNOWN_AGENTS.find? (fun x => testCI x.2 (r.userAgent.getD "")) = some e := hm
  obtain ⟨pre, post, hl, hpe, hpre⟩ := find?_split _ _ e hm2
  have hres : (detectAgent r).agentName = e.1 ∧ "ua" ∈ (detectAgent r).layers := by
    rcases Nat.lt_or_ge (analyzePatterns r) 40 with hs | hs
    · rw [detectAgent_some_low r e hm hs]
      exact ⟨rfl, by simp⟩
    · rw [detectAgent_some_high r e hm hs]
      exact ⟨rfl, by simp⟩
  refine ⟨e, pre, post, hl, by simpa using hpe, ?_, hres.1, hres.2⟩
  intro x hx
  simpa using hpre x hx

theorem C4_witness :
    (∃ e ∈ KNOWN_AGENTS, testCI e.2 (reqDouble.userAgent.getD "") = true) ∧
    (∃ e pre post,
      KNOWN_AGENTS = pre ++ e :: post ∧
      testCI e.2 (reqDouble.userAgent.getD "") = true ∧
      (∀ x ∈ pre, testCI x.2 (reqDouble.userAgent.getD "") = false) ∧
      (detectAgent reqDouble).agentName = e.1 ∧
      "ua" ∈ (detectAgent reqDouble).layers) :=
  ⟨by decide, C4_first_match reqDouble (by decide)⟩

theorem C5_no_qualifying_layer (r : Req)
    (hm : ∀ e ∈ KNOWN_AGENTS, testCI e.2 (r.userAgent.getD "") = false)
    (hs : analyzePatterns r < 40) :
    detectAgent r = ⟨false, "", 0, []⟩ :=
  detectAgent_none_low r (findAgent_eq_none _ hm) hs

theorem C5_witness :
    (∀ e ∈ KNOWN_AGENTS, testCI e.2 (reqHuman.userAgent.getD "") = false) ∧
    analyzePatterns reqHuman < 40 ∧
    detectAgent reqHuman = ⟨false, "", 0, []⟩ :=
  ⟨by decide, by decide, C5_no_qualifying_layer reqHuman (by decide) (by decide)⟩

theorem C6_pattern_only (r : Req)
    (hm : ∀ e ∈ KNOWN_AGENTS, testCI e.2 (r.userAgent.getD "") = false)
    (hs : 40 ≤ analyzePatterns r) :
    detectAgent r =
      ⟨decide (50 ≤ analyzePatterns r), "unknown-pattern",
       analyzePatterns r, ["pattern"]⟩ :=
  detectAgent_none_high r (findAgent_eq_none _ hm) hs

theorem C6_witness :
    (∀ e ∈ KNOWN_AGENTS, testCI e.2 (reqB.userAgent.getD "") = false) ∧
    40 ≤ analyzePatterns reqB ∧
    detectAgent reqB =
      ⟨decide (50 ≤ analyzePatterns reqB), "unknown-pattern",
       analyzePatterns reqB, ["pattern"]⟩ :=
  ⟨by decide, by decide, C6_pattern_only reqB (by decide) (by decide)⟩

theorem C7_both_layers (r : Req)
    (h : ∃ e ∈ KNOWN_AGENTS, testCI e.2 (r.userAgent.getD "") = true)
    (hs : 40 ≤ analyzePatterns r) :
    (detectAgent r).confidence = min 100 (95 + 5) ∧
    (detectAgent r).confidence = 100 ∧
    (detectAgent r).isAgent = true := by
  obtain ⟨e, hm⟩ := findAgent_exists _ h
  rw [detectAgent_some_high r e hm hs]
  exact ⟨rfl, rfl, rfl⟩

theorem C7_witness :
    (∃ e ∈ KNOWN_AGENTS, testCI e.2 (reqA.userAgent.getD "") = true) ∧
    40 ≤ analyzePatterns reqA ∧
    ((detectAgent reqA).confidence = min 100 (95 + 5) ∧
     (detectAgent reqA).confidence = 100 ∧
     (detectAgent reqA).isAgent = true) :=
  ⟨by decide, by decide, C7_both_layers reqA (by decide) (by decide)⟩

theorem C8_pattern_score_bounds :
    (∀ r : Req, analyzePatterns r ≤ 60) ∧
    (∀ r : Req, acceptScore r = 10 ∨ acceptScore r = 0) ∧
    analyzePatterns reqAllAbsent = 60 :=
  ⟨analyzePatterns_le, acceptScore_cases, by decide⟩

theorem C9_single_variant_degenerate (r : Req)
    (h0 : analyzePatterns r = 0) :
    (detectAgentSingle (r.userAgent.getD "")).isAgent
        = (detectAgent r).isAgent ∧
    (detectAgentSingle (r.userAgent.getD "")).agentName
        = (detectAgent r).agentName ∧
    (detectAgentSingle (r.userAgent.getD "")).confidence
        = (detectAgent r).confidence := by
  rcases hm : findAgent (r.userAgent.getD "") with _ | e
  · rw [detectAgent_none_low r hm (by omega)]
    simp [detectAgentSingle, hm]
  · rw [detectAgent_some_low r e hm (by omega)]
    simp [detectAgentSingle, hm]

theorem C9_witness :
    analyzePatterns reqAgentBrowserlike = 0 ∧
    ((detectAgentSingle (reqAgentBrowserlike.userAgent.getD "")).isAgent
        = (detectAgent reqAgentBrowserlike).isAgent ∧
     (detectAgentSingle (reqAgentBrowserlike.userAgent.getD "")).agentName
        = (detectAgent reqAgentBrowserlike).agentName ∧
     (detectAgentSingle (reqAgentBrowserlike.userAgent.getD "")).confidence
        = (detectAgent reqAgentBrowserlike).confidence) :=
  ⟨by decide, C9_single_variant_degenerate reqAgentBrowserlike (by decide)⟩

end TestTracker
